import Mathlib

/-!
Shallow embedding of `src/rendering/opengl/gl_object.rs` (crate `opal-rs`).

The OpenGL context is modelled as a fresh-name counter together with a
trace of the GL calls issued, in order.  Each Rust method becomes a Lean
function threading this `GLState` explicitly.  Machine integers:
`GLuint`/`GLenum` handles are `Nat`, `GLint` is `Int`, and the Rust cast
`indices.len() as GLint` (usize → i32 truncation) is modelled explicitly
by `glintOfUsize`.
-/

/-- GL enum value `gl::ARRAY_BUFFER`. -/
def GL_ARRAY_BUFFER : Nat := 0x8892

/-- GL enum value `gl::ELEMENT_ARRAY_BUFFER`. -/
def GL_ELEMENT_ARRAY_BUFFER : Nat := 0x8893

/-- GL enum value `gl::STATIC_DRAW`. -/
def GL_STATIC_DRAW : Nat := 0x88E4

/-- GL enum value `gl::UNSIGNED_INT`. -/
def GL_UNSIGNED_INT : Nat := 0x1405

/-- GL enum value `gl::FLOAT`. -/
def GL_FLOAT : Nat := 0x1406

/-- GL enum value `gl::FALSE`. -/
def GL_FALSE : Nat := 0

/-- Byte size of `GLuint`, i.e. `std::mem::size_of::<GLuint>()`. -/
def sizeofGLuint : Nat := 4

/-- The Rust cast `n as GLint` from a `usize`: truncate to 32 bits and
reinterpret as a two's-complement signed 32-bit integer. -/
def glintOfUsize (n : Nat) : Int :=
  let m : Nat := n % 2 ^ 32
  if m < 2 ^ 31 then (m : Int) else (m : Int) - 2 ^ 32

/-- The eleven-variant `DrawingMode` enum of `gl_object.rs`. -/
inductive DrawingMode where
  | Points
  | Lines
  | LineLoop
  | LineStrip
  | Triangles
  | TriangleStrip
  | TriangleFan
  | LinesAdjacency
  | LineStripAdjacency
  | TrianglesAdjacency
  | TrianglesStripAdjacency
deriving DecidableEq

/-- The `#[repr(u32)]` discriminant of each `DrawingMode` variant, i.e. the
value of `self.drawing_mode as u32` (the `gl::POINTS`, … constants). -/
def DrawingMode.glEnum : DrawingMode → Nat
  | .Points => 0x0
  | .Lines => 0x1
  | .LineLoop => 0x2
  | .LineStrip => 0x3
  | .Triangles => 0x4
  | .TriangleStrip => 0x5
  | .TriangleFan => 0x6
  | .LinesAdjacency => 0xA
  | .LineStripAdjacency => 0xB
  | .TrianglesAdjacency => 0xC
  | .TrianglesStripAdjacency => 0xD

/-- One GL API call, as recorded in the trace.  Arguments mirror the
arguments the Rust code passes (data pointers are erased; buffer uploads
record the target, the byte size `len * size_of::<T>()` and the usage
hint). -/
inductive GLCall where
  | genVertexArrays (handle : Nat)
  | bindVertexArray (handle : Nat)
  | genBuffers (handle : Nat)
  | bindBuffer (target : Nat) (handle : Nat)
  | bufferData (target : Nat) (byteSize : Nat) (usage : Nat)
  | vertexAttribPointer (location : Nat) (size : Int) (typ : Nat)
      (normalized : Nat) (stride : Nat) (offset : Nat)
  | enableVertexAttribArray (location : Nat)
  | drawElements (mode : Nat) (count : Int) (indexType : Nat)
  | drawArrays (mode : Nat) (first : Int) (count : Int)
  | deleteBuffers (handle : Nat)
  | deleteVertexArrays (handle : Nat)
deriving DecidableEq

/-- The GL context: a fresh-name counter for `glGen*` (GL hands out
non-zero names, so a well-formed context has `0 < nextName`) and the
ordered trace of calls issued so far. -/
structure GLState where
  nextName : Nat
  trace : List GLCall

/-- Append one GL call to the trace. -/
def GLState.emit (s : GLState) (c : GLCall) : GLState :=
  { s with trace := s.trace ++ [c] }

/-- The calls issued between an earlier state `s` and a later state `s2`
whose trace extends `s.trace`. -/
def traceDelta (s s2 : GLState) : List GLCall :=
  s2.trace.drop s.trace.length

/-- Modelled from the spec: the vertex-description record of
`crate::rendering::vertex` (not under `src/`): an attribute name, a
component count (`GLint`), a byte stride and a byte offset within an
interleaved vertex record. -/
structure VertexDesc where
  «attribute» : String
  size : Int
  stride : Nat
  offset : Nat

/-- Modelled from the spec: the `VertexBuffer<T>` tagged union of
`crate::rendering::vertex` (not under `src/`): `Array` holds a sequence
of vertex records, `Indexed` additionally holds a sequence of 32-bit
unsigned indices. -/
inductive VertexBuffer (T : Type) where
  | Array (verts : List T)
  | Indexed (verts : List T) (indices : List Nat)

/-- Whether a `VertexBuffer` is the `Indexed` variant. -/
def VertexBuffer.isIndexed {T : Type} : VertexBuffer T → Bool
  | .Array _ => false
  | .Indexed _ _ => true

/-- Modelled from the spec: the `Vertices<T>` value of
`crate::rendering::vertex` (not under `src/`): a vertex description plus
a vertex source union. -/
structure Vertices (T : Type) where
  desc : List VertexDesc
  buffer : VertexBuffer T

/-- Modelled from the spec: the shader-program abstraction of
`gl_program.rs` (not under `src/`), as consumed here: `activate` may
fail (modelled by the flag `activateOk`), and attribute locations are
resolved by name. -/
structure ShaderProgram where
  activateOk : Bool
  attributeLocation : String → Nat

/-- The `GlOject` struct (source spelling kept): three GPU handles, the
recorded index count (`GLint`), the draw topology and the shared shader
program. -/
structure GlOject where
  vao : Nat
  vbo : Nat
  ebo : Nat
  index_count : Int
  drawing_mode : DrawingMode
  program : ShaderProgram

/-- `setup_vertex_objects`: generate and bind a vertex array, generate
and bind a vertex buffer, upload `v.len() * size_of::<T>()` bytes with
`STATIC_DRAW`.  `sizeT` plays `std::mem::size_of::<T>()`.  Returns the
written-back `vao` and `vbo` names. -/
def setup_vertex_objects (T : Type) (sizeT : Nat) (v : List T) (s : GLState) :
    Nat × Nat × GLState :=
  let vao := s.nextName
  let s1 : GLState :=
    { nextName := s.nextName + 1,
      trace := s.trace ++ [GLCall.genVertexArrays vao] }
  let s2 := s1.emit (GLCall.bindVertexArray vao)
  let vbo := s2.nextName
  let s3 : GLState :=
    { nextName := s2.nextName + 1,
      trace := s2.trace ++ [GLCall.genBuffers vbo] }
  let s4 := s3.emit (GLCall.bindBuffer GL_ARRAY_BUFFER vbo)
  let s5 := s4.emit (GLCall.bufferData GL_ARRAY_BUFFER (v.length * sizeT) GL_STATIC_DRAW)
  (vao, vbo, s5)

/-- `setup_element_objects`: generate and bind an element buffer, upload
`indices.len() * size_of::<GLuint>()` bytes with `STATIC_DRAW`.  Returns
the written-back `ebo` name. -/
def setup_element_objects (indices : List Nat) (s : GLState) : Nat × GLState :=
  let ebo := s.nextName
  let s1 : GLState :=
    { nextName := s.nextName + 1,
      trace := s.trace ++ [GLCall.genBuffers ebo] }
  let s2 := s1.emit (GLCall.bindBuffer GL_ELEMENT_ARRAY_BUFFER ebo)
  let s3 := s2.emit (GLCall.bufferData GL_ELEMENT_ARRAY_BUFFER
    (indices.length * sizeofGLuint) GL_STATIC_DRAW)
  (ebo, s3)

/-- `setup_attrib_pointer`: for each vertex descriptor, resolve the
attribute location via the program, configure the attribute pointer
(`GL_FLOAT`, non-normalized) and enable the attribute slot. -/
def setup_attrib_pointer (descs : List VertexDesc) (program : ShaderProgram)
    (s : GLState) : GLState :=
  match descs with
  | [] => s
  | desc :: rest =>
      let location := program.attributeLocation desc.«attribute»
      setup_attrib_pointer rest program
        ((s.emit (GLCall.vertexAttribPointer location desc.size GL_FLOAT GL_FALSE
          desc.stride desc.offset)).emit (GLCall.enableVertexAttribArray location))

/-- `GlOject::new`: initialize `vao = vbo = ebo = 0`, then set up the
vertex objects (and, for `Indexed`, the element objects and the index
count `indices.len() as GLint`) and the attribute pointers.  Default
drawing mode is `Triangles`. -/
def GlOject.new (T : Type) (sizeT : Nat) (vertices : Vertices T)
    (program : ShaderProgram) (s : GLState) : GlOject × GLState :=
  match vertices.buffer with
  | .Array v =>
      let r := setup_vertex_objects T sizeT v s
      let s2 := setup_attrib_pointer vertices.desc program r.2.2
      ({ vao := r.1, vbo := r.2.1, ebo := 0, index_count := 0,
         drawing_mode := DrawingMode.Triangles, program := program }, s2)
  | .Indexed v indices =>
      let index_count := glintOfUsize indices.length
      let r := setup_vertex_objects T sizeT v s
      let re := setup_element_objects indices r.2.2
      let s3 := setup_attrib_pointer vertices.desc program re.2
      ({ vao := r.1, vbo := r.2.1, ebo := re.1, index_count := index_count,
         drawing_mode := DrawingMode.Triangles, program := program }, s3)

/-- `GlOject::bind`: bind the vertex array if its handle is non-zero. -/
def GlOject.bind (o : GlOject) (s : GLState) : GLState :=
  if 0 < o.vao then s.emit (GLCall.bindVertexArray o.vao) else s

/-- `GlOject::draw`: bind, activate the program (`.expect` aborts the
call on failure — modelled by the returned flag being `false` with no
further calls issued), then `DrawElements(mode, index_count,
UNSIGNED_INT)` if `index_count > 0`, else `DrawArrays(mode, 0, 3)`. -/
def GlOject.draw (o : GlOject) (s : GLState) : GLState × Bool :=
  let s1 := o.bind s
  if o.program.activateOk then
    if 0 < o.index_count then
      (s1.emit (GLCall.drawElements o.drawing_mode.glEnum o.index_count
        GL_UNSIGNED_INT), true)
    else
      (s1.emit (GLCall.drawArrays o.drawing_mode.glEnum 0 3), true)
  else (s1, false)

/-- `GlOject::update`: for `Indexed`, overwrite `index_count` and
re-upload the index data into `self.ebo`; in both cases re-upload the
vertex data into `self.vbo`.  Handles are never reassigned. -/
def GlOject.update (T : Type) (sizeT : Nat) (o : GlOject)
    (vertices : VertexBuffer T) (s : GLState) : GlOject × GLState :=
  match vertices with
  | .Array verts =>
      let s1 := s.emit (GLCall.bindBuffer GL_ARRAY_BUFFER o.vbo)
      let s2 := s1.emit (GLCall.bufferData GL_ARRAY_BUFFER
        (verts.length * sizeT) GL_STATIC_DRAW)
      (o, s2)
  | .Indexed verts indices =>
      let o2 : GlOject := { o with index_count := glintOfUsize indices.length }
      let s1 := s.emit (GLCall.bindBuffer GL_ELEMENT_ARRAY_BUFFER o.ebo)
      let s2 := s1.emit (GLCall.bufferData GL_ELEMENT_ARRAY_BUFFER
        (indices.length * sizeofGLuint) GL_STATIC_DRAW)
      let s3 := s2.emit (GLCall.bindBuffer GL_ARRAY_BUFFER o.vbo)
      let s4 := s3.emit (GLCall.bufferData GL_ARRAY_BUFFER
        (verts.length * sizeT) GL_STATIC_DRAW)
      (o2, s4)

/-- `GlOject::set_drawing_mode`. -/
def GlOject.set_drawing_mode (o : GlOject) (mode : DrawingMode) : GlOject :=
  { o with drawing_mode := mode }

/-- `impl Drop for GlOject`: delete `vbo`, then `ebo` (each only if
non-zero), then `vao` (only if non-zero). -/
def GlOject.drop (o : GlOject) (s : GLState) : GLState :=
  let s1 := if 0 < o.vbo then s.emit (GLCall.deleteBuffers o.vbo) else s
  let s2 := if 0 < o.ebo then s1.emit (GLCall.deleteBuffers o.ebo) else s1
  if 0 < o.vao then s2.emit (GLCall.deleteVertexArrays o.vao) else s2

/-- Number of calls in a trace satisfying `p`. -/
def countP (p : GLCall → Bool) (t : List GLCall) : Nat :=
  (t.filter p).length

/-- A call that allocates a GPU resource (`glGen*`). -/
def GLCall.isAlloc : GLCall → Bool
  | .genVertexArrays _ => true
  | .genBuffers _ => true
  | _ => false

/-- A call that releases a GPU resource (`glDelete*`). -/
def GLCall.isRelease : GLCall → Bool
  | .deleteBuffers _ => true
  | .deleteVertexArrays _ => true
  | _ => false

/-- A `glGenVertexArrays` call. -/
def GLCall.isGenVertexArrays : GLCall → Bool
  | .genVertexArrays _ => true
  | _ => false

/-- A `glGenBuffers` call. -/
def GLCall.isGenBuffers : GLCall → Bool
  | .genBuffers _ => true
  | _ => false

/-- A draw call (`glDrawElements` or `glDrawArrays`). -/
def GLCall.isDrawCall : GLCall → Bool
  | .drawElements _ _ _ => true
  | .drawArrays _ _ _ => true
  | _ => false

/-- An indexed draw call. -/
def GLCall.isDrawElements : GLCall → Bool
  | .drawElements _ _ _ => true
  | _ => false

lemma trace_drop_append (s : GLState) (l : List GLCall) :
    (s.trace ++ l).drop s.trace.length = l := by
  simp

/-- C9: for every one of the eleven topology values, `set_drawing_mode`
followed by the `drawing_mode` getter returns exactly the mode set, and
`set_drawing_mode` changes no other field of the object. -/
theorem set_drawing_mode_roundtrip (o : GlOject) (mode : DrawingMode) :
    (o.set_drawing_mode mode).drawing_mode = mode ∧
    (o.set_drawing_mode mode).vao = o.vao ∧
    (o.set_drawing_mode mode).vbo = o.vbo ∧
    (o.set_drawing_mode mode).ebo = o.ebo ∧
    (o.set_drawing_mode mode).index_count = o.index_count ∧
    (o.set_drawing_mode mode).program = o.program :=
  ⟨rfl, rfl, rfl, rfl, rfl, rfl⟩

/-- C3: `update` never reallocates or changes any of the three GPU
handles (no `glGen*`/`glDelete*` call is issued and `vao`, `vbo`, `ebo`
are unchanged for either source variant), and `update` with an `Array`
source re-uploads only the vertex buffer and leaves the whole object —
in particular the recorded index count — unchanged. -/
theorem update_preserves_handles (T : Type) (sizeT : Nat) (o : GlOject)
    (vb : VertexBuffer T) (verts : List T) (s : GLState) :
    ((GlOject.update T sizeT o vb s).1.vao = o.vao ∧
     (GlOject.update T sizeT o vb s).1.vbo = o.vbo ∧
     (GlOject.update T sizeT o vb s).1.ebo = o.ebo ∧
     countP GLCall.isAlloc (traceDelta s (GlOject.update T sizeT o vb s).2) = 0 ∧
     countP GLCall.isRelease (traceDelta s (GlOject.update T sizeT o vb s).2) = 0) ∧
    ((GlOject.update T sizeT o (VertexBuffer.Array verts) s).1 = o ∧
     traceDelta s (GlOject.update T sizeT o (VertexBuffer.Array verts) s).2 =
       [GLCall.bindBuffer GL_ARRAY_BUFFER o.vbo,
        GLCall.bufferData GL_ARRAY_BUFFER (verts.length * sizeT) GL_STATIC_DRAW]) := by
  refine ⟨?_, ?_, ?_⟩
  · cases vb <;>
      simp [GlOject.update, GLState.emit, traceDelta, countP,
        GLCall.isAlloc, GLCall.isRelease, List.append_assoc, trace_drop_append]
  · rfl
  · simp [GlOject.update, GLState.emit, traceDelta, List.append_assoc,
      trace_drop_append]

/-- The two calls per descriptor issued by `setup_attrib_pointer`, in
loop order. -/
def attribCalls (descs : List VertexDesc) (program : ShaderProgram) : List GLCall :=
  match descs with
  | [] => []
  | desc :: rest =>
      GLCall.vertexAttribPointer (program.attributeLocation desc.«attribute»)
          desc.size GL_FLOAT GL_FALSE desc.stride desc.offset ::
        GLCall.enableVertexAttribArray (program.attributeLocation desc.«attribute») ::
        attribCalls rest program

lemma setup_attrib_pointer_spec (descs : List VertexDesc)
    (program : ShaderProgram) (s : GLState) :
    setup_attrib_pointer descs program s =
      { s with trace := s.trace ++ attribCalls descs program } := by
  induction descs generalizing s with
  | nil => simp [setup_attrib_pointer, attribCalls]
  | cons d rest ih =>
      simp [setup_attrib_pointer, attribCalls, GLState.emit, ih, List.append_assoc]

lemma countP_attribCalls_eq_zero (p : GLCall → Bool)
    (h1 : ∀ loc sz t n st off, p (GLCall.vertexAttribPointer loc sz t n st off) = false)
    (h2 : ∀ loc, p (GLCall.enableVertexAttribArray loc) = false)
    (descs : List VertexDesc) (program : ShaderProgram) :
    countP p (attribCalls descs program) = 0 := by
  induction descs with
  | nil => simp [countP, attribCalls]
  | cons d rest ih =>
      simp [countP, attribCalls, h1, h2] at ih ⊢
      exact ih

lemma attribCalls_shape (descs : List VertexDesc) (program : ShaderProgram) :
    ∀ a ∈ attribCalls descs program,
      a.isGenVertexArrays = false ∧ a.isGenBuffers = false ∧
      a.isAlloc = false ∧ a.isRelease = false ∧ a.isDrawCall = false := by
  induction descs with
  | nil => simp [attribCalls]
  | cons d rest ih =>
      intro a ha
      simp only [attribCalls, List.mem_cons] at ha
      rcases ha with h | h | h
      · subst h; exact ⟨rfl, rfl, rfl, rfl, rfl⟩
      · subst h; exact ⟨rfl, rfl, rfl, rfl, rfl⟩
      · exact ih a h

lemma new_array_spec (T : Type) (sizeT : Nat) (descs : List VertexDesc)
    (v : List T) (program : ShaderProgram) (s : GLState) :
    GlOject.new T sizeT ⟨descs, VertexBuffer.Array v⟩ program s =
      (⟨s.nextName, s.nextName + 1, 0, 0, DrawingMode.Triangles, program⟩,
       ⟨s.nextName + 2,
        s.trace ++
          ([GLCall.genVertexArrays s.nextName,
            GLCall.bindVertexArray s.nextName,
            GLCall.genBuffers (s.nextName + 1),
            GLCall.bindBuffer GL_ARRAY_BUFFER (s.nextName + 1),
            GLCall.bufferData GL_ARRAY_BUFFER (v.length * sizeT) GL_STATIC_DRAW] ++
            attribCalls descs program)⟩) := by
  simp [GlOject.new, setup_vertex_objects, GLState.emit,
    setup_attrib_pointer_spec, List.append_assoc]

lemma new_indexed_spec (T : Type) (sizeT : Nat) (descs : List VertexDesc)
    (v : List T) (indices : List Nat) (program : ShaderProgram) (s : GLState) :
    GlOject.new T sizeT ⟨descs, VertexBuffer.Indexed v indices⟩ program s =
      (⟨s.nextName, s.nextName + 1, s.nextName + 2,
        glintOfUsize indices.length, DrawingMode.Triangles, program⟩,
       ⟨s.nextName + 3,
        s.trace ++
          ([GLCall.genVertexArrays s.nextName,
            GLCall.bindVertexArray s.nextName,
            GLCall.genBuffers (s.nextName + 1),
            GLCall.bindBuffer GL_ARRAY_BUFFER (s.nextName + 1),
            GLCall.bufferData GL_ARRAY_BUFFER (v.length * sizeT) GL_STATIC_DRAW,
            GLCall.genBuffers (s.nextName + 2),
            GLCall.bindBuffer GL_ELEMENT_ARRAY_BUFFER (s.nextName + 2),
            GLCall.bufferData GL_ELEMENT_ARRAY_BUFFER
              (indices.length * sizeofGLuint) GL_STATIC_DRAW] ++
            attribCalls descs program)⟩) := by
  simp [GlOject.new, setup_vertex_objects, setup_element_objects, GLState.emit,
    setup_attrib_pointer_spec, List.append_assoc]

/-- A shader program whose activation succeeds; attribute locations all 0. -/
def okProgram : ShaderProgram := ⟨true, fun _ => 0⟩

/-- A shader program whose activation fails. -/
def failProgram : ShaderProgram := ⟨false, fun _ => 0⟩

/-- A fresh GL context: name 1 is the next free handle, empty trace. -/
def initState : GLState := ⟨1, []⟩

/-- A drawable as produced from an `Array` source: no `ebo`, index count 0. -/
def sampleArrayObj : GlOject := ⟨1, 2, 0, 0, DrawingMode.Triangles, okProgram⟩

/-- A drawable as produced from an `Indexed` source of three indices. -/
def sampleIndexedObj : GlOject := ⟨1, 2, 3, 3, DrawingMode.Triangles, okProgram⟩

/-- A drawable whose program activation fails. -/
def sampleFailObj : GlOject := ⟨1, 2, 3, 3, DrawingMode.Triangles, failProgram⟩

/-- C2: on an object whose recorded index count is not positive, `draw`
issues exactly one non-indexed draw call, with the hard-coded vertex
count 3 and the current topology, and no indexed draw call — whatever
vertex data was uploaded (the call does not depend on it). -/
theorem draw_nonindexed_fixed_three (o : GlOject) (s : GLState)
    (hcount : o.index_count ≤ 0) (hact : o.program.activateOk = true) :
    (GlOject.draw o s).2 = true ∧
    traceDelta s (GlOject.draw o s).1 =
      (if 0 < o.vao then [GLCall.bindVertexArray o.vao] else []) ++
        [GLCall.drawArrays o.drawing_mode.glEnum 0 3] ∧
    countP GLCall.isDrawCall (traceDelta s (GlOject.draw o s).1) = 1 ∧
    countP GLCall.isDrawElements (traceDelta s (GlOject.draw o s).1) = 0 := by
  have hnot : ¬ 0 < o.index_count := by omega
  by_cases hv : 0 < o.vao <;>
    simp [GlOject.draw, GlOject.bind, GLState.emit, traceDelta, hact, hnot, hv,
      countP, GLCall.isDrawCall, GLCall.isDrawElements, List.append_assoc,
      trace_drop_append]

/-- Witness for `draw_nonindexed_fixed_three` at a concrete object. -/
theorem draw_nonindexed_fixed_three_witness :
    sampleArrayObj.index_count ≤ 0 ∧
    sampleArrayObj.program.activateOk = true ∧
    ((GlOject.draw sampleArrayObj initState).2 = true ∧
     traceDelta initState (GlOject.draw sampleArrayObj initState).1 =
       (if 0 < sampleArrayObj.vao then [GLCall.bindVertexArray sampleArrayObj.vao]
        else []) ++
         [GLCall.drawArrays sampleArrayObj.drawing_mode.glEnum 0 3] ∧
     countP GLCall.isDrawCall
       (traceDelta initState (GlOject.draw sampleArrayObj initState).1) = 1 ∧
     countP GLCall.isDrawElements
       (traceDelta initState (GlOject.draw sampleArrayObj initState).1) = 0) :=
  ⟨by decide, rfl, draw_nonindexed_fixed_three sampleArrayObj initState (by decide) rfl⟩

/-- C4: on an object whose recorded index count `M` is positive, `draw`
issues exactly one draw call; it is indexed, has count exactly `M`, uses
the 32-bit unsigned index type and the current topology. -/
theorem draw_indexed_count (o : GlOject) (s : GLState)
    (hcount : 0 < o.index_count) (hact : o.program.activateOk = true) :
    (GlOject.draw o s).2 = true ∧
    traceDelta s (GlOject.draw o s).1 =
      (if 0 < o.vao then [GLCall.bindVertexArray o.vao] else []) ++
        [GLCall.drawElements o.drawing_mode.glEnum o.index_count GL_UNSIGNED_INT] ∧
    countP GLCall.isDrawCall (traceDelta s (GlOject.draw o s).1) = 1 ∧
    countP GLCall.isDrawElements (traceDelta s (GlOject.draw o s).1) = 1 := by
  by_cases hv : 0 < o.vao <;>
    simp [GlOject.draw, GlOject.bind, GLState.emit, traceDelta, hact, hcount, hv,
      countP, GLCall.isDrawCall, GLCall.isDrawElements, List.append_assoc,
      trace_drop_append]

/-- Witness for `draw_indexed_count` at a concrete object. -/
theorem draw_indexed_count_witness :
    0 < sampleIndexedObj.index_count ∧
    sampleIndexedObj.program.activateOk = true ∧
    ((GlOject.draw sampleIndexedObj initState).2 = true ∧
     traceDelta initState (GlOject.draw sampleIndexedObj initState).1 =
       (if 0 < sampleIndexedObj.vao then [GLCall.bindVertexArray sampleIndexedObj.vao]
        else []) ++
         [GLCall.drawElements sampleIndexedObj.drawing_mode.glEnum
           sampleIndexedObj.index_count GL_UNSIGNED_INT] ∧
     countP GLCall.isDrawCall
       (traceDelta initState (GlOject.draw sampleIndexedObj initState).1) = 1 ∧
     countP GLCall.isDrawElements
       (traceDelta initState (GlOject.draw sampleIndexedObj initState).1) = 1) :=
  ⟨by decide, rfl, draw_indexed_count sampleIndexedObj initState (by decide) rfl⟩

/-- C8: if program activation fails, `draw` aborts: the returned flag is
`false` (the Rust `.expect` panics there), the state is exactly the one
after `bind`, and no draw call of either kind is issued; there is no
retry or recovery path. -/
theorem draw_aborts_on_activation_failure (o : GlOject) (s : GLState)
    (hact : o.program.activateOk = false) :
    (GlOject.draw o s).2 = false ∧
    (GlOject.draw o s).1 = o.bind s ∧
    countP GLCall.isDrawCall (traceDelta s (GlOject.draw o s).1) = 0 := by
  by_cases hv : 0 < o.vao <;>
    simp [GlOject.draw, GlOject.bind, GLState.emit, traceDelta, hact, hv,
      countP, GLCall.isDrawCall, trace_drop_append]

/-- Witness for `draw_aborts_on_activation_failure` at a concrete object. -/
theorem draw_aborts_on_activation_failure_witness :
    sampleFailObj.program.activateOk = false ∧
    ((GlOject.draw sampleFailObj initState).2 = false ∧
     (GlOject.draw sampleFailObj initState).1 = sampleFailObj.bind initState ∧
     countP GLCall.isDrawCall
       (traceDelta initState (GlOject.draw sampleFailObj initState).1) = 0) :=
  ⟨rfl, draw_aborts_on_activation_failure sampleFailObj initState rfl⟩

/-- C10: an object constructed from an `Indexed` source with an empty
index sequence has index count 0, so `draw` takes the non-indexed path
and issues the fixed-count-3 `DrawArrays` call (never `DrawElements`
with count 0), even though an index-data resource was allocated for it
(`ebo` is non-zero). -/
theorem indexed_empty_draws_nonindexed (T : Type) (sizeT : Nat)
    (descs : List VertexDesc) (v : List T) (program : ShaderProgram)
    (s s2 : GLState) (hact : program.activateOk = true) :
    (GlOject.new T sizeT ⟨descs, VertexBuffer.Indexed v []⟩ program s).1.index_count
        = 0 ∧
    0 < (GlOject.new T sizeT ⟨descs, VertexBuffer.Indexed v []⟩ program s).1.ebo ∧
    (GlOject.draw (GlOject.new T sizeT ⟨descs, VertexBuffer.Indexed v []⟩ program s).1
        s2).2 = true ∧
    traceDelta s2
        (GlOject.draw (GlOject.new T sizeT ⟨descs, VertexBuffer.Indexed v []⟩ program s).1
          s2).1 =
      (if 0 < (GlOject.new T sizeT ⟨descs, VertexBuffer.Indexed v []⟩ program s).1.vao
       then [GLCall.bindVertexArray
              (GlOject.new T sizeT ⟨descs, VertexBuffer.Indexed v []⟩ program s).1.vao]
       else []) ++ [GLCall.drawArrays DrawingMode.Triangles.glEnum 0 3] ∧
    countP GLCall.isDrawElements
        (traceDelta s2
          (GlOject.draw
            (GlOject.new T sizeT ⟨descs, VertexBuffer.Indexed v []⟩ program s).1 s2).1)
      = 0 := by
  by_cases hv : 0 < s.nextName <;>
    simp [new_indexed_spec, glintOfUsize, GlOject.draw, GlOject.bind, GLState.emit,
      traceDelta, hact, hv, countP, GLCall.isDrawElements, List.append_assoc,
      trace_drop_append]

/-- Witness for `indexed_empty_draws_nonindexed` at concrete inputs. -/
theorem indexed_empty_draws_nonindexed_witness :
    okProgram.activateOk = true ∧
    ((GlOject.new Unit 1 ⟨[], VertexBuffer.Indexed [()] []⟩ okProgram initState).1.index_count
        = 0 ∧
     0 < (GlOject.new Unit 1 ⟨[], VertexBuffer.Indexed [()] []⟩ okProgram initState).1.ebo ∧
     (GlOject.draw
        (GlOject.new Unit 1 ⟨[], VertexBuffer.Indexed [()] []⟩ okProgram initState).1
        initState).2 = true ∧
     traceDelta initState
        (GlOject.draw
          (GlOject.new Unit 1 ⟨[], VertexBuffer.Indexed [()] []⟩ okProgram initState).1
          initState).1 =
      (if 0 < (GlOject.new Unit 1 ⟨[], VertexBuffer.Indexed [()] []⟩ okProgram initState).1.vao
       then [GLCall.bindVertexArray
              (GlOject.new Unit 1 ⟨[], VertexBuffer.Indexed [()] []⟩ okProgram initState).1.vao]
       else []) ++ [GLCall.drawArrays DrawingMode.Triangles.glEnum 0 3] ∧
     countP GLCall.isDrawElements
        (traceDelta initState
          (GlOject.draw
            (GlOject.new Unit 1 ⟨[], VertexBuffer.Indexed [()] []⟩ okProgram initState).1
            initState).1)
      = 0) :=
  ⟨rfl, indexed_empty_draws_nonindexed Unit 1 [] [()] okProgram initState initState rfl⟩

/-- Counterexample to C5 as stated: constructing from an `Indexed`
source with `M = 2^31` indices records index count `-2^31`, not `M`
(the Rust `indices.len() as GLint` cast truncates to a signed 32-bit
value). -/
theorem new_indexed_count_cex :
    (GlOject.new Unit 1
        ⟨[], VertexBuffer.Indexed [()] (List.replicate (2 ^ 31) 0)⟩
        okProgram initState).1.index_count = -(2 ^ 31) ∧
    (GlOject.new Unit 1
        ⟨[], VertexBuffer.Indexed [()] (List.replicate (2 ^ 31) 0)⟩
        okProgram initState).1.index_count ≠ ((2 ^ 31 : Nat) : Int) := by
  constructor <;> norm_num [new_indexed_spec, glintOfUsize]

/-- C5 (amended): construction from an `Array` source allocates exactly
one array-layout resource (`glGenVertexArrays`) and one buffer resource
(`glGenBuffers`, the vertex-data buffer), leaves `ebo = 0` and index
count 0; from an `Indexed` source it allocates one array-layout and two
buffer resources (vertex-data and index-data, so `ebo` is non-zero) and
records as index count the number of indices cast to a signed 32-bit
integer (equal to `M` whenever `M < 2^31`); in both cases the draw
topology defaults to triangles. -/
theorem new_allocation (T : Type) (sizeT : Nat) (descs : List VertexDesc)
    (v : List T) (indices : List Nat) (program : ShaderProgram) (s : GLState) :
    (countP GLCall.isGenVertexArrays
        (traceDelta s (GlOject.new T sizeT ⟨descs, VertexBuffer.Array v⟩ program s).2)
      = 1 ∧
     countP GLCall.isGenBuffers
        (traceDelta s (GlOject.new T sizeT ⟨descs, VertexBuffer.Array v⟩ program s).2)
      = 1 ∧
     (GlOject.new T sizeT ⟨descs, VertexBuffer.Array v⟩ program s).1.ebo = 0 ∧
     (GlOject.new T sizeT ⟨descs, VertexBuffer.Array v⟩ program s).1.index_count = 0 ∧
     (GlOject.new T sizeT ⟨descs, VertexBuffer.Array v⟩ program s).1.drawing_mode
       = DrawingMode.Triangles) ∧
    (countP GLCall.isGenVertexArrays
        (traceDelta s
          (GlOject.new T sizeT ⟨descs, VertexBuffer.Indexed v indices⟩ program s).2)
      = 1 ∧
     countP GLCall.isGenBuffers
        (traceDelta s
          (GlOject.new T sizeT ⟨descs, VertexBuffer.Indexed v indices⟩ program s).2)
      = 2 ∧
     0 < (GlOject.new T sizeT ⟨descs, VertexBuffer.Indexed v indices⟩ program s).1.ebo ∧
     (GlOject.new T sizeT ⟨descs, VertexBuffer.Indexed v indices⟩ program s).1.index_count
       = glintOfUsize indices.length ∧
     (GlOject.new T sizeT ⟨descs, VertexBuffer.Indexed v indices⟩ program s).1.drawing_mode
       = DrawingMode.Triangles) := by
  refine ⟨⟨?_, ?_, rfl, rfl, rfl⟩, ⟨?_, ?_, by simp [new_indexed_spec], rfl, rfl⟩⟩ <;>
    simp [new_array_spec, new_indexed_spec, traceDelta, trace_drop_append, countP,
      List.filter_append, GLCall.isGenVertexArrays, GLCall.isGenBuffers] <;>
    first
      | exact fun a ha => (attribCalls_shape descs program a ha).1
      | exact fun a ha => (attribCalls_shape descs program a ha).2.1

/-- Counterexample to C6 as stated: `update` with an `Indexed` source of
`M' = 2^31` indices records index count `-2^31`, not `M'` (the
`indices.len() as GLint` cast truncates to a signed 32-bit value). -/
theorem update_indexed_count_cex :
    (GlOject.update Unit 1 sampleIndexedObj
        (VertexBuffer.Indexed [()] (List.replicate (2 ^ 31) 0))
        initState).1.index_count = -(2 ^ 31) ∧
    (GlOject.update Unit 1 sampleIndexedObj
        (VertexBuffer.Indexed [()] (List.replicate (2 ^ 31) 0))
        initState).1.index_count ≠ ((2 ^ 31 : Nat) : Int) := by
  constructor <;> norm_num [GlOject.update, glintOfUsize]

/-- C6 (amended): `update` with an `Indexed` source of `M'` indices
overwrites the recorded index count with `M'` cast to a signed 32-bit
integer (equal to `M'` whenever `M' < 2^31`), changes nothing else in
the object, and re-uploads both buffers: the index-sequence upload into
the existing index-data resource (`self.ebo`) is issued strictly before
the vertex-record upload into the existing vertex-data resource
(`self.vbo`). -/
theorem update_indexed_overwrites_count (T : Type) (sizeT : Nat) (o : GlOject)
    (verts : List T) (indices : List Nat) (s : GLState) :
    (GlOject.update T sizeT o (VertexBuffer.Indexed verts indices) s).1 =
      { o with index_count := glintOfUsize indices.length } ∧
    traceDelta s (GlOject.update T sizeT o (VertexBuffer.Indexed verts indices) s).2 =
      [GLCall.bindBuffer GL_ELEMENT_ARRAY_BUFFER o.ebo,
       GLCall.bufferData GL_ELEMENT_ARRAY_BUFFER (indices.length * sizeofGLuint)
         GL_STATIC_DRAW,
       GLCall.bindBuffer GL_ARRAY_BUFFER o.vbo,
       GLCall.bufferData GL_ARRAY_BUFFER (verts.length * sizeT) GL_STATIC_DRAW] := by
  constructor
  · rfl
  · simp [GlOject.update, GLState.emit, traceDelta, List.append_assoc,
      trace_drop_append]

/-- Counterexample to C1 as stated: an object constructed from an
`Array` source and then updated with an `Indexed` source has received an
`Indexed` source, yet its index-data handle is still 0 (`update` never
assigns `self.ebo`). -/
theorem ebo_after_indexed_update_cex :
    (VertexBuffer.Indexed [()] [0, 1, 2] : VertexBuffer Unit).isIndexed = true ∧
    (GlOject.update Unit 1
        (GlOject.new Unit 1 ⟨[], VertexBuffer.Array [()]⟩ okProgram initState).1
        (VertexBuffer.Indexed [()] [0, 1, 2]) initState).1.ebo = 0 :=
  ⟨rfl, by simp [new_array_spec, GlOject.update]⟩

lemma update_ebo (T : Type) (sizeT : Nat) (o : GlOject) (vb : VertexBuffer T)
    (s : GLState) : (GlOject.update T sizeT o vb s).1.ebo = o.ebo := by
  cases vb <;> rfl

lemma foldl_update_ebo (T : Type) (sizeT : Nat) (ups : List (VertexBuffer T))
    (p : GlOject × GLState) :
    (ups.foldl (fun q vb => GlOject.update T sizeT q.1 vb q.2) p).1.ebo = p.1.ebo := by
  induction ups generalizing p with
  | nil => rfl
  | cons u rest ih => simp [List.foldl, ih, update_ebo]

/-- C1 (amended): after construction followed by any sequence of
`update` calls, the index-data handle `ebo` is non-zero if and only if
the object was *constructed from* an `Indexed` source.  (`update` never
reassigns `ebo`, so later `Indexed` updates do not make it non-zero.) -/
theorem ebo_nonzero_iff_constructed_indexed (T : Type) (sizeT : Nat)
    (vertices : Vertices T) (program : ShaderProgram) (s : GLState)
    (ups : List (VertexBuffer T)) :
    (0 < (ups.foldl (fun q vb => GlOject.update T sizeT q.1 vb q.2)
          (GlOject.new T sizeT vertices program s)).1.ebo ↔
      vertices.buffer.isIndexed = true) := by
  obtain ⟨descs, vb⟩ := vertices
  rw [foldl_update_ebo]
  cases vb with
  | Array v => simp [new_array_spec, VertexBuffer.isIndexed]
  | Indexed v indices => simp [new_indexed_spec, VertexBuffer.isIndexed]

/-- C7: on destruction, the calls issued are exactly the releases of the
non-zero handles — `vbo` then `ebo` (vertex-data and index-data first),
then `vao` (array-layout last) — so every non-zero handle is released
exactly once and zero handles are not released at all.  The hypothesis
rules out the buffer handles of a single object aliasing each other,
which holds for every object the constructor can produce. -/
theorem drop_releases_each_nonzero_once (o : GlOject) (s : GLState)
    (hne : o.vbo = o.ebo → o.vbo = 0) :
    traceDelta s (o.drop s) =
      (if 0 < o.vbo then [GLCall.deleteBuffers o.vbo] else []) ++
        (if 0 < o.ebo then [GLCall.deleteBuffers o.ebo] else []) ++
        (if 0 < o.vao then [GLCall.deleteVertexArrays o.vao] else []) ∧
    (0 < o.vbo →
      (traceDelta s (o.drop s)).count (GLCall.deleteBuffers o.vbo) = 1) ∧
    (0 < o.ebo →
      (traceDelta s (o.drop s)).count (GLCall.deleteBuffers o.ebo) = 1) ∧
    (0 < o.vao →
      (traceDelta s (o.drop s)).count (GLCall.deleteVertexArrays o.vao) = 1) ∧
    (traceDelta s (o.drop s)).count (GLCall.deleteBuffers 0) = 0 ∧
    (traceDelta s (o.drop s)).count (GLCall.deleteVertexArrays 0) = 0 := by
  by_cases hv : 0 < o.vbo <;> by_cases he : 0 < o.ebo <;> by_cases ha : 0 < o.vao <;>
    first
      | (have hvne : o.vbo ≠ o.ebo := fun h => by have := hne h; omega
         simp [GlOject.drop, GLState.emit, traceDelta, hv, he, ha,
           List.append_assoc, trace_drop_append, List.count_cons, List.count_nil,
           hvne, Ne.symm hvne] <;> omega)
      | (simp [GlOject.drop, GLState.emit, traceDelta, hv, he, ha,
          List.append_assoc, trace_drop_append, List.count_cons, List.count_nil] <;>
          omega)

/-- Witness for `drop_releases_each_nonzero_once` at a concrete object. -/
theorem drop_releases_each_nonzero_once_witness :
    (sampleIndexedObj.vbo = sampleIndexedObj.ebo → sampleIndexedObj.vbo = 0) ∧
    (traceDelta initState (sampleIndexedObj.drop initState) =
      (if 0 < sampleIndexedObj.vbo then [GLCall.deleteBuffers sampleIndexedObj.vbo]
       else []) ++
        (if 0 < sampleIndexedObj.ebo then [GLCall.deleteBuffers sampleIndexedObj.ebo]
         else []) ++
        (if 0 < sampleIndexedObj.vao
         then [GLCall.deleteVertexArrays sampleIndexedObj.vao] else []) ∧
     (0 < sampleIndexedObj.vbo →
       (traceDelta initState (sampleIndexedObj.drop initState)).count
         (GLCall.deleteBuffers sampleIndexedObj.vbo) = 1) ∧
     (0 < sampleIndexedObj.ebo →
       (traceDelta initState (sampleIndexedObj.drop initState)).count
         (GLCall.deleteBuffers sampleIndexedObj.ebo) = 1) ∧
     (0 < sampleIndexedObj.vao →
       (traceDelta initState (sampleIndexedObj.drop initState)).count
         (GLCall.deleteVertexArrays sampleIndexedObj.vao) = 1) ∧
     (traceDelta initState (sampleIndexedObj.drop initState)).count
       (GLCall.deleteBuffers 0) = 0 ∧
     (traceDelta initState (sampleIndexedObj.drop initState)).count
       (GLCall.deleteVertexArrays 0) = 0) :=
  ⟨by decide, drop_releases_each_nonzero_once sampleIndexedObj initState (by decide)⟩

lemma update_vbo (T : Type) (sizeT : Nat) (o : GlOject) (vb : VertexBuffer T)
    (s : GLState) : (GlOject.update T sizeT o vb s).1.vbo = o.vbo := by
  cases vb <;> rfl

lemma foldl_update_vbo (T : Type) (sizeT : Nat) (ups : List (VertexBuffer T))
    (p : GlOject × GLState) :
    (ups.foldl (fun q vb => GlOject.update T sizeT q.1 vb q.2) p).1.vbo = p.1.vbo := by
  induction ups generalizing p with
  | nil => rfl
  | cons u rest ih => simp [List.foldl, ih, update_vbo]

lemma constructed_buffer_handles_not_aliased (T : Type) (sizeT : Nat)
    (vertices : Vertices T) (program : ShaderProgram) (s : GLState)
    (ups : List (VertexBuffer T)) :
    (ups.foldl (fun q vb => GlOject.update T sizeT q.1 vb q.2)
          (GlOject.new T sizeT vertices program s)).1.vbo =
        (ups.foldl (fun q vb => GlOject.update T sizeT q.1 vb q.2)
          (GlOject.new T sizeT vertices program s)).1.ebo →
      (ups.foldl (fun q vb => GlOject.update T sizeT q.1 vb q.2)
          (GlOject.new T sizeT vertices program s)).1.vbo = 0 := by
  rw [foldl_update_vbo, foldl_update_ebo]
  obtain ⟨descs, vb⟩ := vertices
  cases vb with
  | Array v => simp [new_array_spec]
  | Indexed v indices => simp [new_indexed_spec]
